import Mathlib

/-!
Shallow embedding of the core of the `aioeloverblik` repository
(`src/aioeloverblik/client.py`): the token manager (`_get_access_token`,
`_decode_token_expiry`) and the request pipeline (`_request`), together with
models of the Python standard-library pieces they rely on (`str.split`,
`base64.urlsafe_b64decode`, `json.loads`, truthiness, `float(...)`).

Design notes for the embedding:
  * Python numbers (ints and floats) are modelled with the exact rational
    type `PyNum` below (an unreduced numerator/denominator pair, kept
    kernel-computable); every `PyNum` produced by this development has a
    positive denominator.
  * `time.time()` is modelled by an explicit `now : PyNum` argument.
  * The mutable fields `self._access_token` / `self._token_expiry` become an
    explicit `ClientState` threaded through the functions.
  * The HTTP transport is an environment: one stream of responses for the
    token endpoint and one for the target endpoint, indexed by call number.
  * Exceptions become an explicit `Except` error channel; exception classes
    that are not part of the library (httpx transport errors, JSON decode
    errors, KeyError/TypeError) are modelled by the `uncaught` constructor,
    since `client.py` never catches them.
-/

namespace Aioeloverblik

/-- Exact rational model of Python numeric values (int / float).  The pair is
not kept in lowest terms; all values produced by this development have a
positive denominator, and the order relation below is the rational order
under that assumption. -/
structure PyNum where
  num : Int
  den : Nat
deriving Repr, DecidableEq

/-- Embed an integer. -/
def PyNum.ofInt (i : Int) : PyNum := ⟨i, 1⟩

/-- Embed a natural number. -/
def PyNum.ofNat (n : Nat) : PyNum := ⟨n, 1⟩

/-- Rational order (cross multiplication; correct for positive denominators). -/
def PyNum.lt (a b : PyNum) : Bool := a.num * b.den < b.num * a.den

/-- Addition. -/
def PyNum.add (a b : PyNum) : PyNum := ⟨a.num * b.den + b.num * a.den, a.den * b.den⟩

/-- Rational equality to zero (Python `x != 0` truthiness test on numbers). -/
def PyNum.isZero (a : PyNum) : Bool := a.num == 0

/-- JSON values as produced by Python `json.loads`.  Object fields are kept in
insertion order; `jGet` below resolves duplicate keys the way a Python dict
built by the parser would (last occurrence wins). -/
inductive Json where
  | null
  | bool (b : Bool)
  | num (q : PyNum)
  | str (s : String)
  | arr (xs : List Json)
  | obj (fields : List (String × Json))
deriving Repr

/-- Python dict lookup on parsed JSON object fields: the last binding of a
key wins (as in a dict built by inserting the fields in order). -/
def jGet (fields : List (String × Json)) (k : String) : Option Json :=
  match fields with
  | [] => none
  | (k', v) :: rest =>
    match jGet rest k with
    | some r => some r
    | none => if k' == k then some v else none

/-- Python truthiness of a JSON value. -/
def pyTruthy : Json → Bool
  | .null => false
  | .bool b => b
  | .num q => !q.isZero
  | .str s => s != ""
  | .arr xs => !xs.isEmpty
  | .obj fs => !fs.isEmpty

/-- ASCII whitespace (the fragment of `str.strip()` relevant here). -/
def isPyWs (c : Char) : Bool :=
  c == ' ' || c == '\t' || c == '\n' || c == '\x0d' || c == '\x0b' || c == '\x0c'

/-- Numeric value of a list of decimal digit characters. -/
def digitsValC (cs : List Char) : Nat :=
  cs.foldl (fun a c => a * 10 + (c.toNat - 48)) 0

/-- Model of Python `float(s)` on plain decimal strings: optional surrounding
whitespace, optional sign, digits with at most one decimal point and at least
one digit.  Exotic accepted forms (exponents, `inf`, `nan`, underscores) are
outside the modelled fragment; no claim depends on them. -/
def floatOfString (s : String) : Option PyNum :=
  let cs := (s.data.dropWhile isPyWs).reverse.dropWhile isPyWs |>.reverse
  let signed : Bool × List Char :=
    match cs with
    | '-' :: rest => (true, rest)
    | '+' :: rest => (false, rest)
    | _ => (false, cs)
  let neg := signed.1
  let body := signed.2
  let ip := body.takeWhile (fun c => c.isDigit)
  let rest := body.dropWhile (fun c => c.isDigit)
  let sign : Int := if neg then -1 else 1
  match rest with
  | [] =>
    if ip.isEmpty then none
    else some ⟨sign * digitsValC ip, 1⟩
  | '.' :: fp =>
    if fp.all (fun c => c.isDigit) && !(ip.isEmpty && fp.isEmpty) then
      some ⟨sign * digitsValC (ip ++ fp), 10 ^ fp.length⟩
    else none
  | _ => none

/-- Model of Python `float(x)` applied to a JSON value: numbers pass through,
booleans become 0/1, numeric strings are parsed, everything else raises
(`none`). -/
def pyFloat : Json → Option PyNum
  | .num q => some q
  | .bool b => some (if b then ⟨1, 1⟩ else ⟨0, 1⟩)
  | .str s => floatOfString s
  | _ => none

/-- UTF-8 encoding of one character, as a list of byte values. -/
def utf8Char (c : Char) : List Nat :=
  let n := c.toNat
  if n < 128 then [n]
  else if n < 2048 then [192 + n / 64, 128 + n % 64]
  else if n < 65536 then [224 + n / 4096, 128 + n / 64 % 64, 128 + n % 64]
  else [240 + n / 262144, 128 + n / 4096 % 64, 128 + n / 64 % 64, 128 + n % 64]

/-- UTF-8 encoding of a string (Python `s.encode()`), as byte values. -/
def strBytes (s : String) : List Nat := (s.data.map utf8Char).flatten

/-- Value of one character of the base64url alphabet, after the `-` to `+`
and `_` to `/` translation done by `base64.urlsafe_b64decode`. -/
def b64Val (c : Char) : Option Nat :=
  let n := c.toNat
  if 65 ≤ n && n ≤ 90 then some (n - 65)
  else if 97 ≤ n && n ≤ 122 then some (n - 71)
  else if 48 ≤ n && n ≤ 57 then some (n + 4)
  else if n == 43 || n == 45 then some 62
  else if n == 47 || n == 95 then some 63
  else none

/-- Decode base64 groups of four characters into byte values.  `=` padding is
accepted only at the end of the final group (one or two characters).  This is
`base64.urlsafe_b64decode` restricted to the standard alphabet with strict
padding; CPython's lenient decoder additionally discards some malformed
characters, a corner no claim depends on. -/
def b64Chunks : List Char → Option (List Nat)
  | [] => some []
  | c1 :: c2 :: c3 :: c4 :: rest => do
    let v1 ← b64Val c1
    let v2 ← b64Val c2
    if c3 == '=' then
      if c4 == '=' && rest.isEmpty then
        some [v1 * 4 + v2 / 16]
      else none
    else do
      let v3 ← b64Val c3
      if c4 == '=' then
        if rest.isEmpty then
          some [v1 * 4 + v2 / 16, v2 % 16 * 16 + v3 / 4]
        else none
      else do
        let v4 ← b64Val c4
        let restB ← b64Chunks rest
        some ([v1 * 4 + v2 / 16, v2 % 16 * 16 + v3 / 4, v3 % 4 * 64 + v4] ++ restB)
  | _ => none

/-- Model of `base64.urlsafe_b64decode` on a string, yielding byte values. -/
def b64urlDecode (s : String) : Option (List Nat) := b64Chunks s.data

/-- JSON whitespace byte. -/
def isJsonWs (b : Nat) : Bool := b == 32 || b == 9 || b == 10 || b == 13

/-- Drop leading JSON whitespace bytes. -/
def skipWs : List Nat → List Nat
  | [] => []
  | b :: rest => if isJsonWs b then skipWs rest else b :: rest

/-- Decimal digit byte. -/
def isDigitB (b : Nat) : Bool := 48 ≤ b && b ≤ 57

/-- Numeric value of a list of decimal digit bytes. -/
def digitsValB (bs : List Nat) : Nat :=
  bs.foldl (fun a b => a * 10 + (b - 48)) 0

/-- Hexadecimal digit value of a byte. -/
def hexVal (b : Nat) : Option Nat :=
  if 48 ≤ b && b ≤ 57 then some (b - 48)
  else if 97 ≤ b && b ≤ 102 then some (b - 87)
  else if 65 ≤ b && b ≤ 70 then some (b - 55)
  else none

/-- Build the number for sign/integer-digits/fraction-digits/exponent, exactly
the rational the decimal literal denotes. -/
def mkJsonNum (neg : Bool) (ds fs : List Nat) (e : Int) : PyNum :=
  let m : Nat := digitsValB (ds ++ fs)
  let sign : Int := if neg then -1 else 1
  match e with
  | Int.ofNat k => ⟨sign * (m * 10 ^ k), 10 ^ fs.length⟩
  | Int.negSucc k => ⟨sign * m, 10 ^ fs.length * 10 ^ (k + 1)⟩

/-- Parse the fraction part of a JSON number (after the integer part): either
no dot, or a dot followed by at least one digit. -/
def parseFracPart : List Nat → Option (List Nat × List Nat)
  | 46 :: r =>
    let ds := r.takeWhile isDigitB
    if ds.isEmpty then none else some (ds, r.dropWhile isDigitB)
  | bs => some ([], bs)

/-- Parse the exponent part of a JSON number: absent, or `e`/`E`, an optional
sign, and at least one digit (leading zeros allowed). -/
def parseExpPart : List Nat → Option (Int × List Nat)
  | [] => some (0, [])
  | b :: r =>
    if b == 101 || b == 69 then
      let signed : Bool × List Nat :=
        match r with
        | 43 :: r2 => (false, r2)
        | 45 :: r2 => (true, r2)
        | r2 => (false, r2)
      let ds := signed.2.takeWhile isDigitB
      if ds.isEmpty then none
      else
        let e : Int := digitsValB ds
        some (if signed.1 then -e else e, signed.2.dropWhile isDigitB)
    else some (0, b :: r)

/-- Parse a JSON number starting at the given bytes (first byte is `-` or a
digit).  Enforces JSON's no-leading-zero rule on the integer part. -/
def parseNum (bs : List Nat) : Option (PyNum × List Nat) :=
  let signed : Bool × List Nat :=
    match bs with
    | 45 :: r => (true, r)
    | _ => (false, bs)
  let ds := signed.2.takeWhile isDigitB
  if ds.isEmpty then none
  else if ds.length > 1 && ds.head? == some 48 then none
  else
    match parseFracPart (signed.2.dropWhile isDigitB) with
    | none => none
    | some (fs, bs2) =>
      match parseExpPart bs2 with
      | none => none
      | some (e, bs3) => some (mkJsonNum signed.1 ds fs e, bs3)

/-- Parse the body of a JSON string (opening quote already consumed),
decoding UTF-8 and the JSON escapes; `\uXXXX` is handled for non-surrogate
code points (surrogate pairs are outside the modelled fragment). -/
def parseStrBody : Nat → List Nat → List Char → Option (String × List Nat)
  | 0, _, _ => none
  | fuel + 1, bs, acc =>
    match bs with
    | [] => none
    | b :: rest =>
      if b == 34 then some (String.mk acc.reverse, rest)
      else if b == 92 then
        match rest with
        | [] => none
        | e :: rest2 =>
          if e == 34 then parseStrBody fuel rest2 ('"' :: acc)
          else if e == 92 then parseStrBody fuel rest2 ('\\' :: acc)
          else if e == 47 then parseStrBody fuel rest2 ('/' :: acc)
          else if e == 98 then parseStrBody fuel rest2 ('\x08' :: acc)
          else if e == 102 then parseStrBody fuel rest2 ('\x0c' :: acc)
          else if e == 110 then parseStrBody fuel rest2 ('\n' :: acc)
          else if e == 114 then parseStrBody fuel rest2 ('\x0d' :: acc)
          else if e == 116 then parseStrBody fuel rest2 ('\t' :: acc)
          else if e == 117 then
            match rest2 with
            | h1 :: h2 :: h3 :: h4 :: rest3 => do
              let v1 ← hexVal h1
              let v2 ← hexVal h2
              let v3 ← hexVal h3
              let v4 ← hexVal h4
              let n := v1 * 4096 + v2 * 256 + v3 * 16 + v4
              if n < 55296 || 57344 ≤ n then
                parseStrBody fuel rest3 (Char.ofNat n :: acc)
              else none
            | _ => none
          else none
      else if b < 32 then none
      else if b < 128 then parseStrBody fuel rest (Char.ofNat b :: acc)
      else if 194 ≤ b && b ≤ 223 then
        match rest with
        | c1 :: rest2 =>
          if 128 ≤ c1 && c1 < 192 then
            parseStrBody fuel rest2 (Char.ofNat ((b - 192) * 64 + (c1 - 128)) :: acc)
          else none
        | _ => none
      else if 224 ≤ b && b ≤ 239 then
        match rest with
        | c1 :: c2 :: rest2 =>
          if 128 ≤ c1 && c1 < 192 && 128 ≤ c2 && c2 < 192 then
            let n := (b - 224) * 4096 + (c1 - 128) * 64 + (c2 - 128)
            if 2048 ≤ n && (n < 55296 || 57344 ≤ n) then
              parseStrBody fuel rest2 (Char.ofNat n :: acc)
            else none
          else none
        | _ => none
      else if 240 ≤ b && b ≤ 244 then
        match rest with
        | c1 :: c2 :: c3 :: rest2 =>
          if 128 ≤ c1 && c1 < 192 && 128 ≤ c2 && c2 < 192 && 128 ≤ c3 && c3 < 192 then
            let n := (b - 240) * 262144 + (c1 - 128) * 4096 + (c2 - 128) * 64 + (c3 - 128)
            if 65536 ≤ n && n < 1114112 then
              parseStrBody fuel rest2 (Char.ofNat n :: acc)
            else none
          else none
        | _ => none
      else none

mutual

/-- Recursive-descent JSON value parser (model of the grammar accepted by
Python `json.loads`), fuel-indexed to make the recursion structural. -/
def parseValue : Nat → List Nat → Option (Json × List Nat)
  | 0, _ => none
  | fuel + 1, bs =>
    match skipWs bs with
    | [] => none
    | b :: rest =>
      if b == 123 then parseObjBody fuel rest
      else if b == 91 then parseArrBody fuel rest
      else if b == 34 then
        match parseStrBody fuel rest [] with
        | some (s, r) => some (.str s, r)
        | none => none
      else if b == 116 then
        match rest with
        | 114 :: 117 :: 101 :: r => some (.bool true, r)
        | _ => none
      else if b == 102 then
        match rest with
        | 97 :: 108 :: 115 :: 101 :: r => some (.bool false, r)
        | _ => none
      else if b == 110 then
        match rest with
        | 117 :: 108 :: 108 :: r => some (.null, r)
        | _ => none
      else if b == 45 || isDigitB b then
        match parseNum (b :: rest) with
        | some (q, r) => some (.num q, r)
        | none => none
      else none

/-- Object body, after the opening brace byte (123). -/
def parseObjBody : Nat → List Nat → Option (Json × List Nat)
  | 0, _ => none
  | fuel + 1, bs =>
    match skipWs bs with
    | 125 :: r => some (.obj [], r)
    | bs2 => parseMembers fuel bs2 []

/-- One or more `"key": value` members, separated by commas, ended by the
closing brace byte (125). -/
def parseMembers : Nat → List Nat → List (String × Json) → Option (Json × List Nat)
  | 0, _, _ => none
  | fuel + 1, bs, acc =>
    match skipWs bs with
    | 34 :: r =>
      match parseStrBody fuel r [] with
      | some (k, r2) =>
        match skipWs r2 with
        | 58 :: r3 =>
          match parseValue fuel r3 with
          | some (v, r4) =>
            match skipWs r4 with
            | 44 :: r5 => parseMembers fuel r5 (acc ++ [(k, v)])
            | 125 :: r5 => some (.obj (acc ++ [(k, v)]), r5)
            | _ => none
          | none => none
        | _ => none
      | none => none
    | _ => none

/-- Array body, after the opening bracket byte (91). -/
def parseArrBody : Nat → List Nat → Option (Json × List Nat)
  | 0, _ => none
  | fuel + 1, bs =>
    match skipWs bs with
    | 93 :: r => some (.arr [], r)
    | bs2 => parseElems fuel bs2 []

/-- One or more array elements, separated by commas, ended by the closing
bracket byte (93). -/
def parseElems : Nat → List Nat → List Json → Option (Json × List Nat)
  | 0, _, _ => none
  | fuel + 1, bs, acc =>
    match parseValue fuel bs with
    | some (v, r) =>
      match skipWs r with
      | 44 :: r2 => parseElems fuel r2 (acc ++ [v])
      | 93 :: r2 => some (.arr (acc ++ [v]), r2)
      | _ => none
    | none => none

end

/-- Model of Python `json.loads` applied to response bytes: parse one value,
allow surrounding whitespace, reject trailing data; `none` models a raised
`JSONDecodeError`. -/
def json_loads (bs : List Nat) : Option Json :=
  match parseValue (2 * bs.length + 16) bs with
  | some (v, rest) => if (skipWs rest).isEmpty then some v else none
  | none => none

/-- Python `s.split(sep)` for a one-character separator. -/
def pySplitChar (sep : Char) : List Char → List (List Char)
  | [] => [[]]
  | c :: rest =>
    let r := pySplitChar sep rest
    if c == sep then [] :: r
    else
      match r with
      | h :: t => (c :: h) :: t
      | [] => [[c]]

/-- Embedding of `BaseClient._decode_token_expiry` (client.py lines 76-90): split the token
on dots, pad the second segment to a multiple of four characters with `=`,
base64url-decode it, JSON-parse the bytes, and return the `exp` claim as a
float; every failure (fewer than two segments, bad base64, bad JSON, a
non-object payload, a missing or non-convertible `exp`) is swallowed by the
`except Exception` handler and yields 0.0.  A non-string token (possible since
the cached token is whatever `data["result"]` held) fails at `.split` and
also yields 0.0. -/
def decode_token_expiry (token : Json) : PyNum :=
  match token with
  | .str s =>
    match pySplitChar '.' s.data with
    | _ :: payload :: _ =>
      let padded := payload ++ List.replicate ((4 - payload.length % 4) % 4) '='
      match b64Chunks padded with
      | none => ⟨0, 1⟩
      | some bytes =>
        match json_loads bytes with
        | some (.obj fields) =>
          match jGet fields "exp" with
          | some v => (pyFloat v).getD ⟨0, 1⟩
          | none => ⟨0, 1⟩
        | _ => ⟨0, 1⟩
    | _ => ⟨0, 1⟩
  | _ => ⟨0, 1⟩

/-- The exception kinds that can leave `_get_access_token` / `_request`.
The first five correspond to the classes of `exceptions.py` (all subclasses
of `EloverblikError`); messages are abstracted to the data that determines
them.  `uncaught` models every exception that is not part of the library and
that `client.py` does not catch (httpx transport errors such as
`ConnectError`/`TimeoutException`, `json.JSONDecodeError`, `KeyError`,
`TypeError`), identified by a tag. -/
inductive PyError where
  /-- Python `AuthenticationError("Invalid refresh token")`. -/
  | authenticationError
  /-- Python `ServerError`: raised for a non-401 error status during token exchange
  and for a 5xx status in `_request`; carries the triggering status. -/
  | serverError (status : Nat)
  /-- Python `RateLimitError("Rate limit exceeded")`. -/
  | rateLimitError
  /-- Python `EloverblikError` raised for a `success: false` envelope, carrying
  `errorCode`, `errorText` and the envelope itself. -/
  | apiEnvelopeError (errorCode : Option Json) (errorText : Option Json) (envelope : Json)
  /-- Generic `EloverblikError` for any other non-success HTTP status,
  carrying the status code and the raw response body. -/
  | httpStatusError (status : Nat) (body : String)
  /-- An exception class foreign to the library escaping uncaught. -/
  | uncaught (tag : String)
deriving Repr

/-- The value `_request` produces on success: a parsed JSON envelope or the
raw text of a non-JSON response. -/
inductive RequestResult where
  | jsonData (data : Json)
  | text (body : String)
deriving Repr

/-- The mutable token state of `BaseClient`: `self._access_token` (a parsed
JSON value, normally a string, or `None`) and `self._token_expiry`. -/
structure ClientState where
  access_token : Option Json
  token_expiry : PyNum
deriving Repr

/-- The state set up by `BaseClient.__init__`. -/
def initialState : ClientState := ⟨none, ⟨0, 1⟩⟩

/-- One interaction with the token endpoint as seen by
`self._client.get(...)`: either an HTTP response (status and body text), or a
transport-level exception (connect error, timeout) modelled by its tag. -/
inductive AuthResult where
  | resp (status : Nat) (body : String)
  | transportErr (tag : String)

/-- An HTTP response from the target endpoint: status code, declared
content type, and body text. -/
structure HttpResp where
  status : Nat
  contentType : String
  body : String
deriving Repr

/-- One interaction with the target endpoint, as for `AuthResult`. -/
inductive CallResult where
  | resp (r : HttpResp)
  | transportErr (tag : String)

/-- httpx `Response.is_success`: a 2xx status.  `raise_for_status()` raises
`HTTPStatusError` exactly when this is false. -/
def is_success (status : Nat) : Bool := 200 ≤ status && status < 300

/-- Test whether `pat` occurs at the start of `s`. -/
def leadsWith (pat s : List Char) : Bool :=
  match pat, s with
  | [], _ => true
  | _ :: _, [] => false
  | a :: ps, b :: ss => a == b && leadsWith ps ss

/-- Python substring containment `pat in s` on character lists. -/
def hasSubstring (pat : List Char) : List Char → Bool
  | [] => pat.isEmpty
  | c :: rest => leadsWith pat (c :: rest) || hasSubstring pat rest

/-- The content-type test of `_request` (client.py line 116):
`"application/json" not in content_type`, negated. -/
def contentTypeIsJson (ct : String) : Bool := hasSubstring "application/json".data ct.data

/-- The body of the token exchange in `_get_access_token` (client.py lines
64-74): GET the token endpoint, `raise_for_status()`, parse the JSON body,
read `data["result"]`, store it with its decoded expiry.  Only
`httpx.HTTPStatusError` is caught: a 401 becomes `AuthenticationError`, any
other error status becomes `ServerError`; transport errors, JSON decode
errors and a missing/inaccessible `"result"` key escape uncaught. -/
def token_exchange (st : ClientState) (auth : AuthResult) :
    Except PyError Json × ClientState :=
  match auth with
  | .transportErr tag => (.error (.uncaught tag), st)
  | .resp status body =>
    if !is_success status then
      if status == 401 then (.error .authenticationError, st)
      else (.error (.serverError status), st)
    else
      match json_loads (strBytes body) with
      | none => (.error (.uncaught "JSONDecodeError"), st)
      | some data =>
        match data with
        | .obj fields =>
          match jGet fields "result" with
          | some tok => (.ok tok, ⟨some tok, decode_token_expiry tok⟩)
          | none => (.error (.uncaught "KeyError"), st)
        | _ => (.error (.uncaught "TypeError"), st)

/-- Embedding of `BaseClient._get_access_token` (client.py lines 54-74): return the cached
token if it is truthy and its expiry is more than 60 seconds past `now`
(`time.time()`); otherwise perform the token exchange.  The third component
counts the authentication calls performed (0 on a cache hit, 1 otherwise). -/
def get_access_token (now : PyNum) (st : ClientState) (auth : AuthResult) :
    Except PyError Json × ClientState × Nat :=
  match st.access_token with
  | some tok =>
    if pyTruthy tok && PyNum.lt (now.add ⟨60, 1⟩) st.token_expiry then
      (.ok tok, st, 0)
    else
      let r := token_exchange st auth
      (r.1, r.2, 1)
  | none =>
    let r := token_exchange st auth
    (r.1, r.2, 1)

/-- The success branch of `_request` (client.py lines 114-126), entered when
`raise_for_status()` did not raise: a non-JSON content type returns the raw
text; otherwise the body is parsed (`JSONDecodeError` escapes uncaught) and a
mapping whose `success` entry is present and falsy raises `EloverblikError`
with the envelope's `errorCode` and `errorText`; any other parsed value is
returned. -/
def handle_success (r : HttpResp) : Except PyError RequestResult :=
  if !contentTypeIsJson r.contentType then .ok (.text r.body)
  else
    match json_loads (strBytes r.body) with
    | none => .error (.uncaught "JSONDecodeError")
    | some data =>
      match data with
      | .obj fields =>
        match jGet fields "success" with
        | some v =>
          if pyTruthy v then .ok (.jsonData data)
          else .error (.apiEnvelopeError (jGet fields "errorCode") (jGet fields "errorText") data)
        | none => .ok (.jsonData data)
      | _ => .ok (.jsonData data)

/-- The terminal classification of an error status in `_request` (client.py
lines 133-138), reached when the 401-retry branch does not apply: 429 becomes
`RateLimitError`, 5xx becomes `ServerError`, anything else (including a 401
with `retry_auth` exhausted) becomes a generic `EloverblikError` with the
status and body. -/
def classify_http_error (status : Nat) (body : String) : PyError :=
  if status == 429 then .rateLimitError
  else if 500 ≤ status then .serverError status
  else .httpStatusError status body

/-- Outcome of one attempt of `_request` before the `retry_auth` decision:
either a final result, or "the dispatched call returned status 401" (with its
body), to be resolved by the caller according to `retry_auth`. -/
inductive AttemptOut where
  | done (res : Except PyError RequestResult) (st : ClientState) (aIdx cIdx : Nat)
  | unauthorized (body : String) (st : ClientState) (aIdx cIdx : Nat)
deriving Repr

/-- One attempt of `_request` (client.py lines 100-132): acquire a token
(propagating its failures), dispatch to the target endpoint (a transport
error escapes uncaught), and on an error status either classify it terminally
or report a 401 to the caller.  `auths`/`calls` are the environment streams
for the token and target endpoints; `aIdx`/`cIdx` index the next interaction
of each stream and are returned advanced. -/
def request_attempt (now : PyNum) (st : ClientState) (auths : Nat → AuthResult)
    (calls : Nat → CallResult) (aIdx cIdx : Nat) : AttemptOut :=
  match get_access_token now st (auths aIdx) with
  | (.error e, st1, n) => .done (.error e) st1 (aIdx + n) cIdx
  | (.ok _, st1, n) =>
    match calls cIdx with
    | .transportErr tag => .done (.error (.uncaught tag)) st1 (aIdx + n) (cIdx + 1)
    | .resp r =>
      if is_success r.status then
        .done (handle_success r) st1 (aIdx + n) (cIdx + 1)
      else if r.status == 401 then
        .unauthorized r.body st1 (aIdx + n) (cIdx + 1)
      else
        .done (.error (classify_http_error r.status r.body)) st1 (aIdx + n) (cIdx + 1)

/-- Aggregate outcome of a `_request` run: the result (or error), the final
state, and the number of authentication calls and of target-endpoint
dispatches performed. -/
structure RunOutcome where
  result : Except PyError RequestResult
  finalState : ClientState
  authCalls : Nat
  httpCalls : Nat
deriving Repr

/-- Embedding of `_request` with `retry_auth=False` (the recursive call at client.py line
132): a 401 now falls through to the terminal classification (the generic
`EloverblikError` branch, since 401 is neither 429 nor 5xx). -/
def request_terminal (now : PyNum) (st : ClientState) (auths : Nat → AuthResult)
    (calls : Nat → CallResult) (aIdx cIdx : Nat) : RunOutcome :=
  match request_attempt now st auths calls aIdx cIdx with
  | .done res st' a c => ⟨res, st', a, c⟩
  | .unauthorized body st' a c => ⟨.error (classify_http_error 401 body), st', a, c⟩

/-- Embedding of `BaseClient._request` with the default `retry_auth=True` (client.py lines
92-138): on a 401 from the target endpoint, clear `self._access_token` and
re-run the whole call once with `retry_auth=False`. -/
def request (now : PyNum) (st : ClientState) (auths : Nat → AuthResult)
    (calls : Nat → CallResult) : RunOutcome :=
  match request_attempt now st auths calls 0 0 with
  | .done res st' a c => ⟨res, st', a, c⟩
  | .unauthorized _ st' a c =>
    request_terminal now ⟨none, st'.token_expiry⟩ auths calls a c

/-- State invariant maintained by the client: whenever a token is cached, the
cached expiry is exactly its decoded expiry.  It holds for `initialState`
(vacuously) and is preserved by every operation (lemmas below). -/
def StateInv (st : ClientState) : Prop :=
  ∀ tok, st.access_token = some tok → st.token_expiry = decode_token_expiry tok

/-- Discriminator: is this JSON value a mapping? -/
def Json.isObj : Json → Bool
  | .obj _ => true
  | _ => false

/-- Discriminator for `ServerError`. -/
def PyError.isServerError : PyError → Bool
  | .serverError _ => true
  | _ => false

/-- Discriminator for `AuthenticationError`. -/
def PyError.isAuthenticationError : PyError → Bool
  | .authenticationError => true
  | _ => false

/-- The token-endpoint stream index after an attempt. -/
def AttemptOut.aIdx : AttemptOut → Nat
  | .done _ _ a _ => a
  | .unauthorized _ _ a _ => a

/-- The target-endpoint stream index after an attempt. -/
def AttemptOut.cIdx : AttemptOut → Nat
  | .done _ _ _ c => c
  | .unauthorized _ _ _ c => c

/-- The client state after an attempt. -/
def AttemptOut.state : AttemptOut → ClientState
  | .done _ st _ _ => st
  | .unauthorized _ st _ _ => st

/-! ### Helper lemmas -/

theorem stateInv_initial : StateInv initialState := by
  intro tok h
  simp [initialState] at h

/-- A decoded expiry with positive numerator can only come from a nonempty
token string, which is truthy. -/
theorem pyTruthy_of_decode_num_pos (tok : Json)
    (h : 0 < (decode_token_expiry tok).num) : pyTruthy tok = true := by
  match tok with
  | .null | .bool _ | .num _ | .arr _ | .obj _ =>
    simp [decode_token_expiry] at h
  | .str s =>
    by_cases hs : s = ""
    · subst hs
      norm_num [decode_token_expiry, pySplitChar] at h
    · simp [pyTruthy, hs]

/-- The freshness test of `_get_access_token` is positive only if `now + 60`
is positive-rational-comparable below the expiry; with a nonnegative clock the
compared expiry has positive numerator. -/
theorem decode_num_pos_of_lt (now e : PyNum) (hnum : 0 ≤ now.num)
    (hden : 0 < now.den) (h : PyNum.lt (now.add ⟨60, 1⟩) e = true) :
    0 < e.num := by
  simp only [PyNum.lt, PyNum.add, decide_eq_true_eq] at h
  push_cast at h
  by_contra hneg
  push_neg at hneg
  have hd : (0 : Int) < (now.den : Int) := by exact_mod_cast hden
  have ha : (0 : Int) ≤ now.num * 1 + 60 * now.den := by
    have hc : (0 : Int) ≤ (now.den : Int) := Int.natCast_nonneg _
    linarith
  have h2 : (0 : Int) ≤ (now.num * 1 + 60 * (now.den : Int)) * (e.den : Int) :=
    mul_nonneg ha (Int.natCast_nonneg _)
  nlinarith [h, h2, hneg, hd]

/-! ### C4 and C10: `_decode_token_expiry` -/

/-- C4: `_decode_token_expiry` is total and returns 0 whenever the expiry
cannot be decoded — fewer than two dot-separated segments, a middle segment
that is not valid base64url after padding, bytes that are not JSON, or a
decoded JSON object lacking an `exp` claim — and returns the numeric `exp`
claim otherwise; it never raises (totality is inherent in the embedding). -/
theorem C4_decode_expiry_total (s : String) :
    ((pySplitChar '.' s.data).length < 2 → decode_token_expiry (.str s) = ⟨0, 1⟩)
  ∧ (∀ h1 p rest, pySplitChar '.' s.data = h1 :: p :: rest →
      (b64Chunks (p ++ List.replicate ((4 - p.length % 4) % 4) '=') = none →
          decode_token_expiry (.str s) = ⟨0, 1⟩)
      ∧ (∀ bytes, b64Chunks (p ++ List.replicate ((4 - p.length % 4) % 4) '=') = some bytes →
          (json_loads bytes = none → decode_token_expiry (.str s) = ⟨0, 1⟩)
          ∧ (∀ fields, json_loads bytes = some (.obj fields) →
              (jGet fields "exp" = none → decode_token_expiry (.str s) = ⟨0, 1⟩)
              ∧ (∀ q, jGet fields "exp" = some (.num q) →
                  decode_token_expiry (.str s) = q)))) := by
  constructor
  · intro hlen
    rcases hl : pySplitChar '.' s.data with _ | ⟨a, _ | ⟨b, t⟩⟩
    · simp [decode_token_expiry, hl]
    · simp [decode_token_expiry, hl]
    · rw [hl] at hlen
      simp at hlen
      omega
  · intro h1 p rest hsplit
    refine ⟨fun hb => by simp [decode_token_expiry, hsplit, hb], ?_⟩
    intro bytes hb
    refine ⟨fun hj => by simp [decode_token_expiry, hsplit, hb, hj], ?_⟩
    intro fields hj
    refine ⟨fun he => by simp [decode_token_expiry, hsplit, hb, hj, he], ?_⟩
    intro q he
    simp [decode_token_expiry, hsplit, hb, hj, he, pyFloat]

/-- Witness for C4 on a concrete two-segment token whose payload is
`(Json for exp equal 10)`. -/
theorem C4_decode_expiry_total_witness :
    decode_token_expiry (Json.str "h.eyJleHAiOjEwfQ") = ⟨10, 1⟩ := by
  have h := (C4_decode_expiry_total "h.eyJleHAiOjEwfQ").2 ['h'] "eyJleHAiOjEwfQ".data []
    (by rfl)
  have h2 := (h.2 [123, 34, 101, 120, 112, 34, 58, 49, 48, 125] (by rfl)).2
    [("exp", Json.num ⟨10, 1⟩)] (by rfl)
  exact h2.2 ⟨10, 1⟩ (by rfl)

/-- C10: `_decode_token_expiry` never requires exactly three dot-separated
segments — any string with at least two segments whose second segment (after
`=` padding) base64url-decodes to a JSON object with a numeric `exp` claim
yields that claim's value, regardless of the trailing segments and without
any signature validation (no segment beyond the second is inspected). -/
theorem C10_decode_ignores_extra_segments (s : String) (h1 p : List Char)
    (rest : List (List Char)) (bytes : List Nat) (fields : List (String × Json)) (q : PyNum)
    (hsplit : pySplitChar '.' s.data = h1 :: p :: rest)
    (hb : b64Chunks (p ++ List.replicate ((4 - p.length % 4) % 4) '=') = some bytes)
    (hj : json_loads bytes = some (.obj fields))
    (he : jGet fields "exp" = some (.num q)) :
    decode_token_expiry (.str s) = q := by
  simp [decode_token_expiry, hsplit, hb, hj, he, pyFloat]

/-- Witness for C10 on a four-segment token. -/
theorem C10_decode_ignores_extra_segments_witness :
    decode_token_expiry (Json.str "a.eyJleHAiOjEwfQ.c.d") = ⟨10, 1⟩ :=
  C10_decode_ignores_extra_segments _ ['a'] "eyJleHAiOjEwfQ".data [['c'], ['d']]
    [123, 34, 101, 120, 112, 34, 58, 49, 48, 125] [("exp", Json.num ⟨10, 1⟩)] ⟨10, 1⟩
    (by rfl) (by rfl) (by rfl) (by rfl)

/-! ### Token-manager lemmas -/

/-- The exchange leaves the state unchanged or replaces it wholesale with the
new token and its decoded expiry. -/
theorem token_exchange_state (st : ClientState) (auth : AuthResult) :
    (token_exchange st auth).2 = st ∨
    ∃ tok, (token_exchange st auth).2 = ⟨some tok, decode_token_expiry tok⟩ := by
  unfold token_exchange
  rcases auth with ⟨status, body⟩ | tag
  · repeat' split
    all_goals first
      | (left; rfl)
      | (rename_i tok _; right; exact ⟨tok, rfl⟩)
  · left; rfl

/-- The exchange preserves the state invariant. -/
theorem stateInv_token_exchange (st : ClientState) (auth : AuthResult)
    (hInv : StateInv st) : StateInv (token_exchange st auth).2 := by
  rcases token_exchange_state st auth with h | ⟨tok, h⟩
  · rw [h]; exact hInv
  · rw [h]
    intro t ht
    simp only [Option.some.injEq] at ht
    rw [ht]

/-- Acquisition via `_get_access_token` preserves the state invariant. -/
theorem stateInv_get_access_token (now : PyNum) (st : ClientState) (auth : AuthResult)
    (hInv : StateInv st) : StateInv (get_access_token now st auth).2.1 := by
  unfold get_access_token
  rcases hat : st.access_token with _ | tok
  · exact stateInv_token_exchange st auth hInv
  · cases hc : (pyTruthy tok && PyNum.lt (now.add ⟨60, 1⟩) st.token_expiry)
    · simp only [hc, Bool.false_eq_true, if_false]
      exact stateInv_token_exchange st auth hInv
    · simp only [hc, if_true]
      exact hInv

/-- Acquisition via `_get_access_token` performs at most one authentication call. -/
theorem gat_calls_le_one (now : PyNum) (st : ClientState) (auth : AuthResult) :
    (get_access_token now st auth).2.2 ≤ 1 := by
  unfold get_access_token
  rcases hat : st.access_token with _ | tok
  · exact le_refl 1
  · cases hc : (pyTruthy tok && PyNum.lt (now.add ⟨60, 1⟩) st.token_expiry)
    · simp [hc]
    · simp [hc]

/-- With no cached token, `_get_access_token` always performs exactly one
authentication call. -/
theorem gat_none_calls (now : PyNum) (st : ClientState) (auth : AuthResult)
    (h : st.access_token = none) : (get_access_token now st auth).2.2 = 1 := by
  unfold get_access_token
  rw [h]

/-- Under the state invariant and a nonnegative clock, the truthiness test in
the cache condition is redundant: freshness alone decides the branch. -/
theorem hit_condition (now : PyNum) (st : ClientState) (hInv : StateInv st)
    (hnum : 0 ≤ now.num) (hden : 0 < now.den) (tok : Json)
    (htok : st.access_token = some tok) :
    (pyTruthy tok && PyNum.lt (now.add ⟨60, 1⟩) st.token_expiry)
      = PyNum.lt (now.add ⟨60, 1⟩) st.token_expiry := by
  cases hlt : PyNum.lt (now.add ⟨60, 1⟩) st.token_expiry
  · simp
  · have he := hInv tok htok
    rw [he] at hlt
    have ht := pyTruthy_of_decode_num_pos tok (decode_num_pos_of_lt now _ hnum hden hlt)
    simp [ht]

/-- On a cached token, `_get_access_token` reduces (under the invariant and a
nonnegative clock) to a plain freshness test. -/
theorem gat_branch (now : PyNum) (st : ClientState) (auth : AuthResult)
    (hInv : StateInv st) (hnum : 0 ≤ now.num) (hden : 0 < now.den)
    (tok : Json) (htok : st.access_token = some tok) :
    get_access_token now st auth
      = if PyNum.lt (now.add ⟨60, 1⟩) st.token_expiry = true then (.ok tok, st, 0)
        else ((token_exchange st auth).1, (token_exchange st auth).2, 1) := by
  unfold get_access_token
  simp only [htok]
  rw [hit_condition now st hInv hnum hden tok htok]

/-! ### C2: the cache behavior of `_get_access_token` -/

/-- C2: under the reachable-state invariant and a nonnegative clock, acquiring
a token performs zero authentication calls and returns the cached token
unchanged if and only if a cached token exists and its expiry is more than 60
seconds after the current time; otherwise it performs exactly one
authentication exchange, and when that exchange succeeds it replaces the
cached token and its decoded expiry and returns the new token. -/
theorem C2_acquire_cache (now : PyNum) (st : ClientState) (auth : AuthResult)
    (hInv : StateInv st) (hnum : 0 ≤ now.num) (hden : 0 < now.den) :
    ((get_access_token now st auth).2.2 = 0 ↔
        ∃ tok, st.access_token = some tok ∧ PyNum.lt (now.add ⟨60, 1⟩) st.token_expiry = true)
  ∧ (∀ tok, st.access_token = some tok → PyNum.lt (now.add ⟨60, 1⟩) st.token_expiry = true →
        get_access_token now st auth = (.ok tok, st, 0))
  ∧ ((get_access_token now st auth).2.2 = 0 ∨ (get_access_token now st auth).2.2 = 1)
  ∧ (∀ status body fields tok, auth = .resp status body → is_success status = true →
        json_loads (strBytes body) = some (.obj fields) → jGet fields "result" = some tok →
        (get_access_token now st auth).2.2 = 1 →
        get_access_token now st auth = (.ok tok, ⟨some tok, decode_token_expiry tok⟩, 1)) := by
  have hmiss : ∀ status body fields tok, auth = .resp status body → is_success status = true →
      json_loads (strBytes body) = some (.obj fields) → jGet fields "result" = some tok →
      token_exchange st auth = (.ok tok, ⟨some tok, decode_token_expiry tok⟩) := by
    intro status body fields tok heq hs hj hr
    subst heq
    simp [token_exchange, hs, hj, hr]
  refine ⟨?_, ?_, ?_, ?_⟩
  · constructor
    · intro h0
      rcases hat : st.access_token with _ | tok
      · have h1 := gat_none_calls now st auth hat
        omega
      · refine ⟨tok, rfl, ?_⟩
        by_contra hlt
        have hlt' : PyNum.lt (now.add ⟨60, 1⟩) st.token_expiry = false := by
          cases h' : PyNum.lt (now.add ⟨60, 1⟩) st.token_expiry
          · rfl
          · exact absurd h' hlt
        rw [gat_branch now st auth hInv hnum hden tok hat, hlt'] at h0
        simp at h0
    · rintro ⟨tok, htok, hlt⟩
      rw [gat_branch now st auth hInv hnum hden tok htok, if_pos hlt]
  · intro tok htok hlt
    rw [gat_branch now st auth hInv hnum hden tok htok, if_pos hlt]
  · have h := gat_calls_le_one now st auth
    omega
  · intro status body fields tok heq hs hj hr h1
    rcases hat : st.access_token with _ | tok'
    · simp only [get_access_token, hat]
      rw [hmiss status body fields tok heq hs hj hr]
    · rw [gat_branch now st auth hInv hnum hden tok' hat] at h1 ⊢
      cases hlt : PyNum.lt (now.add ⟨60, 1⟩) st.token_expiry
      · simp only [hlt, Bool.false_eq_true, if_false]
        rw [hmiss status body fields tok heq hs hj hr]
      · rw [hlt] at h1
        simp at h1

/-- Witness for C2: a cache hit on a concrete fresh token. -/
theorem C2_acquire_cache_witness :
    get_access_token ⟨0, 1⟩ ⟨some (Json.str "h.eyJleHAiOjEwMDAwfQ"), ⟨10000, 1⟩⟩
        (.transportErr "x")
      = (.ok (Json.str "h.eyJleHAiOjEwMDAwfQ"),
         ⟨some (Json.str "h.eyJleHAiOjEwMDAwfQ"), ⟨10000, 1⟩⟩, 0) := by
  have hInv : StateInv ⟨some (Json.str "h.eyJleHAiOjEwMDAwfQ"), ⟨10000, 1⟩⟩ := by
    intro t ht
    simp only [Option.some.injEq] at ht
    subst ht
    rfl
  exact (C2_acquire_cache ⟨0, 1⟩ _ (.transportErr "x") hInv (by decide) (by decide)).2.1
    (Json.str "h.eyJleHAiOjEwMDAwfQ") rfl (by decide)

/-! ### C3: error classification of the token exchange -/

/-- C3 (amended): a token exchange rejected with an unsuccessful HTTP status
fails with `AuthenticationError` when that status is 401 and with
`ServerError` otherwise; the same classification lifts to
`_get_access_token` on a cache miss.  (The original claim — that *every*
non-401 failure becomes `ServerError` and no other exception kind escapes —
is refuted by `C3_counterexample`: only `httpx.HTTPStatusError` is caught, so
transport-level exceptions and body-parsing errors propagate unchanged.) -/
theorem C3_token_exchange_errors (st : ClientState) (status : Nat) (body : String)
    (hs : is_success status = false) :
    (status = 401 → token_exchange st (.resp status body) = (.error .authenticationError, st))
  ∧ (status ≠ 401 → token_exchange st (.resp status body) = (.error (.serverError status), st))
  ∧ (∀ now, st.access_token = none → status = 401 →
      get_access_token now st (.resp status body) = (.error .authenticationError, st, 1))
  ∧ (∀ now, st.access_token = none → status ≠ 401 →
      get_access_token now st (.resp status body) = (.error (.serverError status), st, 1)) := by
  refine ⟨?_, ?_, ?_, ?_⟩
  · intro h
    subst h
    simp [token_exchange, hs]
  · intro h
    simp [token_exchange, hs, beq_iff_eq, h]
  · intro now hnone h
    subst h
    simp only [get_access_token, hnone]
    simp [token_exchange, hs]
  · intro now hnone h
    simp only [get_access_token, hnone]
    simp [token_exchange, hs, beq_iff_eq, h]

/-- Witness for C3 (amended): a 503 from the token endpoint on an empty
cache yields `ServerError`. -/
theorem C3_token_exchange_errors_witness :
    get_access_token ⟨0, 1⟩ initialState (.resp 503 "oops")
      = (.error (.serverError 503), initialState, 1) :=
  (C3_token_exchange_errors initialState 503 "oops" (by decide)).2.2.2 ⟨0, 1⟩ rfl (by decide)

/-- Counterexample for C3 as stated: a transport-level failure of the
exchange (httpx `ConnectError`) escapes uncaught; it is neither
`ServerError` nor `AuthenticationError`. -/
theorem C3_counterexample :
    (get_access_token ⟨0, 1⟩ initialState (.transportErr "httpx.ConnectError")).1
        = .error (.uncaught "httpx.ConnectError")
  ∧ PyError.isServerError (.uncaught "httpx.ConnectError") = false
  ∧ PyError.isAuthenticationError (.uncaught "httpx.ConnectError") = false :=
  ⟨rfl, rfl, rfl⟩

/-! ### C8: freshness of returned tokens -/

/-- C8 (amended): a token returned from the cache-hit path (zero
authentication calls) does have a cached expiry more than the 60-second
margin past `now`; but a freshly exchanged token is returned unconditionally,
with its decoded expiry cached and never checked against the margin
(`C8_counterexample` shows a successful acquire whose returned expiry is
already in the past). -/
theorem C8_fresh_margin (now : PyNum) (st : ClientState) (auth : AuthResult) :
    (∀ res st', get_access_token now st auth = (res, st', 0) →
        st' = st ∧ PyNum.lt (now.add ⟨60, 1⟩) st'.token_expiry = true
        ∧ ∃ tok, st.access_token = some tok ∧ res = .ok tok)
  ∧ (∀ status body fields tok, auth = .resp status body → is_success status = true →
      json_loads (strBytes body) = some (.obj fields) → jGet fields "result" = some tok →
      st.access_token = none →
      get_access_token now st auth = (.ok tok, ⟨some tok, decode_token_expiry tok⟩, 1)) := by
  constructor
  · intro res st' h
    rcases hat : st.access_token with _ | tok
    · have h1 := gat_none_calls now st auth hat
      rw [h] at h1
      simp at h1
    · rw [show get_access_token now st auth
          = (if (pyTruthy tok && PyNum.lt (now.add ⟨60, 1⟩) st.token_expiry) = true
             then (.ok tok, st, 0)
             else ((token_exchange st auth).1, (token_exchange st auth).2, 1))
          from by unfold get_access_token; simp only [hat]] at h
      cases hc : (pyTruthy tok && PyNum.lt (now.add ⟨60, 1⟩) st.token_expiry)
      · rw [hc] at h
        simp at h
      · rw [hc, if_pos rfl] at h
        have hands := hc
        simp only [Bool.and_eq_true] at hands
        injection h with h1 h2
        injection h2 with h2 h3
        exact ⟨h2.symm, h2 ▸ hands.2, tok, rfl, h1.symm⟩
  · intro status body fields tok heq hs hj hr hnone
    subst heq
    simp only [get_access_token, hnone]
    simp [token_exchange, hs, hj, hr]

/-- Witness for C8 (amended), first part, at the concrete cache-hit input. -/
theorem C8_fresh_margin_witness :
    PyNum.lt (PyNum.add ⟨0, 1⟩ ⟨60, 1⟩)
      (⟨some (Json.str "h.eyJleHAiOjEwMDAwfQ"), ⟨10000, 1⟩⟩ : ClientState).token_expiry
      = true := by
  have h := (C8_fresh_margin ⟨0, 1⟩ ⟨some (Json.str "h.eyJleHAiOjEwMDAwfQ"), ⟨10000, 1⟩⟩
      (.transportErr "x")).1 (.ok (Json.str "h.eyJleHAiOjEwMDAwfQ"))
      ⟨some (Json.str "h.eyJleHAiOjEwMDAwfQ"), ⟨10000, 1⟩⟩ (by rfl)
  exact h.2.1

/-- Counterexample for C8 as stated: acquiring on an empty cache with a
server response whose token has `exp` equal 10 succeeds and returns that
token, yet at `now` equal 1000 the cached expiry 10 is not more than 60
seconds in the future. -/
theorem C8_counterexample :
    get_access_token ⟨1000, 1⟩ initialState
        (.resp 200 "\x7b\"result\": \"h.eyJleHAiOjEwfQ\"\x7d")
      = (.ok (Json.str "h.eyJleHAiOjEwfQ"),
         ⟨some (Json.str "h.eyJleHAiOjEwfQ"), ⟨10, 1⟩⟩, 1)
  ∧ PyNum.lt (PyNum.add ⟨1000, 1⟩ ⟨60, 1⟩) ⟨10, 1⟩ = false :=
  ⟨rfl, rfl⟩

/-! ### Request-pipeline lemmas -/

/-- Characterization of one `_request` attempt in terms of the environment:
each row fixes the token-acquisition outcome and the target-endpoint
interaction and gives the attempt's value. -/
theorem attempt_spec (now : PyNum) (st : ClientState) (auths : Nat → AuthResult)
    (calls : Nat → CallResult) (a c : Nat) :
    (∀ e st1 n, get_access_token now st (auths a) = (.error e, st1, n) →
        request_attempt now st auths calls a c = .done (.error e) st1 (a + n) c)
  ∧ (∀ tok st1 n, get_access_token now st (auths a) = (.ok tok, st1, n) →
      (∀ tag, calls c = .transportErr tag →
          request_attempt now st auths calls a c
            = .done (.error (.uncaught tag)) st1 (a + n) (c + 1))
      ∧ (∀ r, calls c = .resp r → is_success r.status = true →
          request_attempt now st auths calls a c
            = .done (handle_success r) st1 (a + n) (c + 1))
      ∧ (∀ r, calls c = .resp r → is_success r.status = false → r.status = 401 →
          request_attempt now st auths calls a c = .unauthorized r.body st1 (a + n) (c + 1))
      ∧ (∀ r, calls c = .resp r → is_success r.status = false → r.status ≠ 401 →
          request_attempt now st auths calls a c
            = .done (.error (classify_http_error r.status r.body)) st1 (a + n) (c + 1))) := by
  constructor
  · intro e st1 n hg
    unfold request_attempt
    rw [hg]
  · intro tok st1 n hg
    refine ⟨?_, ?_, ?_, ?_⟩
    · intro tag hc
      unfold request_attempt
      rw [hg, hc]
    · intro r hc hs
      unfold request_attempt
      rw [hg, hc]
      simp [hs]
    · intro r hc hs h401
      have h4 : (r.status == 401) = true := by simp [h401]
      unfold request_attempt
      rw [hg, hc]
      simp [hs, h4]
    · intro r hc hs h401
      have h4 : (r.status == 401) = false := by simp [h401]
      unfold request_attempt
      rw [hg, hc]
      simp [hs, h4]

/-- An attempt dispatches at most one HTTP call. -/
theorem attempt_cIdx_le (now : PyNum) (st : ClientState) (auths : Nat → AuthResult)
    (calls : Nat → CallResult) (a c : Nat) :
    (request_attempt now st auths calls a c).cIdx ≤ c + 1 := by
  unfold request_attempt
  rcases hg : get_access_token now st (auths a) with ⟨res, st1, n⟩
  rcases res with e | tok
  · simp [AttemptOut.cIdx]
  · rcases hc : calls c with r | tag
    · cases hs : is_success r.status
      · cases h4 : r.status == 401
        · simp [hs, h4, AttemptOut.cIdx]
        · simp [hs, h4, AttemptOut.cIdx]
      · simp [hs, AttemptOut.cIdx]
    · simp [AttemptOut.cIdx]

/-- An attempt advances the token-endpoint stream exactly by the number of
authentication calls its token acquisition performed. -/
theorem attempt_aIdx_eq (now : PyNum) (st : ClientState) (auths : Nat → AuthResult)
    (calls : Nat → CallResult) (a c : Nat) :
    (request_attempt now st auths calls a c).aIdx
      = a + (get_access_token now st (auths a)).2.2 := by
  unfold request_attempt
  rcases hg : get_access_token now st (auths a) with ⟨res, st1, n⟩
  rcases res with e | tok
  · simp [AttemptOut.aIdx]
  · rcases hc : calls c with r | tag
    · cases hs : is_success r.status
      · cases h4 : r.status == 401
        · simp [hs, h4, AttemptOut.aIdx]
        · simp [hs, h4, AttemptOut.aIdx]
      · simp [hs, AttemptOut.aIdx]
    · simp [AttemptOut.aIdx]

/-- Shape of an attempt that reports a 401: the streams advanced by one
dispatch and by the performed authentication calls. -/
theorem attempt_unauthorized_shape (now : PyNum) (st : ClientState)
    (auths : Nat → AuthResult) (calls : Nat → CallResult) (a c : Nat)
    (body : String) (st1 : ClientState) (a1 c1 : Nat)
    (h : request_attempt now st auths calls a c = .unauthorized body st1 a1 c1) :
    c1 = c + 1 ∧ a1 = a + (get_access_token now st (auths a)).2.2
      ∧ st1 = (get_access_token now st (auths a)).2.1 := by
  unfold request_attempt at h
  rcases hg : get_access_token now st (auths a) with ⟨res, st', n⟩
  rw [hg] at h
  rcases res with e | tok
  · simp at h
  · rcases hcc : calls c with r | tag
    · rw [hcc] at h
      cases hs : is_success r.status
      · cases h4 : r.status == 401
        · simp [hs, h4] at h
        · simp [hs, h4] at h
          exact ⟨h.2.2.2.symm, h.2.2.1.symm, h.2.1.symm⟩
      · simp [hs] at h
    · rw [hcc] at h
      simp at h

/-- The terminal run dispatches at most one more HTTP call. -/
theorem request_terminal_httpCalls_le (now : PyNum) (st : ClientState)
    (auths : Nat → AuthResult) (calls : Nat → CallResult) (a c : Nat) :
    (request_terminal now st auths calls a c).httpCalls ≤ c + 1 := by
  unfold request_terminal
  have h := attempt_cIdx_le now st auths calls a c
  rcases hb : request_attempt now st auths calls a c with
      ⟨res, st2, a2, c2⟩ | ⟨b2, st2, a2, c2⟩
  · rw [hb] at h
    simpa [AttemptOut.cIdx] using h
  · rw [hb] at h
    simpa [AttemptOut.cIdx] using h

/-- The terminal run performs exactly one authentication call when it starts
from a cleared cache. -/
theorem request_terminal_authCalls_of_none (now : PyNum) (e : PyNum)
    (auths : Nat → AuthResult) (calls : Nat → CallResult) (a c : Nat) :
    (request_terminal now ⟨none, e⟩ auths calls a c).authCalls = a + 1 := by
  unfold request_terminal
  have h := attempt_aIdx_eq now ⟨none, e⟩ auths calls a c
  rw [gat_none_calls now ⟨none, e⟩ (auths a) rfl] at h
  rcases hb : request_attempt now ⟨none, e⟩ auths calls a c with
      ⟨res, st2, a2, c2⟩ | ⟨b2, st2, a2, c2⟩
  · rw [hb] at h
    simpa [AttemptOut.aIdx] using h
  · rw [hb] at h
    simpa [AttemptOut.aIdx] using h

/-- The state after an attempt is exactly the state after its token
acquisition. -/
theorem attempt_state_eq (now : PyNum) (st : ClientState) (auths : Nat → AuthResult)
    (calls : Nat → CallResult) (a c : Nat) :
    (request_attempt now st auths calls a c).state
      = (get_access_token now st (auths a)).2.1 := by
  unfold request_attempt
  rcases hg : get_access_token now st (auths a) with ⟨res, st1, n⟩
  rcases res with e | tok
  · simp [AttemptOut.state]
  · rcases hc : calls c with r | tag
    · cases hs : is_success r.status
      · cases h4 : r.status == 401
        · simp [hs, h4, AttemptOut.state]
        · simp [hs, h4, AttemptOut.state]
      · simp [hs, AttemptOut.state]
    · simp [AttemptOut.state]

/-- The terminal run preserves the state invariant. -/
theorem stateInv_request_terminal (now : PyNum) (st : ClientState)
    (auths : Nat → AuthResult) (calls : Nat → CallResult) (a c : Nat)
    (hInv : StateInv st) : StateInv (request_terminal now st auths calls a c).finalState := by
  unfold request_terminal
  have h := attempt_state_eq now st auths calls a c
  have h2 := stateInv_get_access_token now st (auths a) hInv
  rcases hb : request_attempt now st auths calls a c with
      ⟨res, st2, a2, c2⟩ | ⟨b2, st2, a2, c2⟩
  · rw [hb] at h
    simp [AttemptOut.state] at h
    rw [← h] at h2
    exact h2
  · rw [hb] at h
    simp [AttemptOut.state] at h
    rw [← h] at h2
    exact h2

/-- Execution of `_request` preserves the state invariant. -/
theorem stateInv_request (now : PyNum) (st : ClientState) (auths : Nat → AuthResult)
    (calls : Nat → CallResult) (hInv : StateInv st) :
    StateInv (request now st auths calls).finalState := by
  unfold request
  have h := attempt_state_eq now st auths calls 0 0
  have h2 := stateInv_get_access_token now st (auths 0) hInv
  rcases ha : request_attempt now st auths calls 0 0 with
      ⟨res, st1, a1, c1⟩ | ⟨b1, st1, a1, c1⟩
  · rw [ha] at h
    simp [AttemptOut.state] at h
    rw [← h] at h2
    exact h2
  · exact stateInv_request_terminal now ⟨none, st1.token_expiry⟩ auths calls a1 c1
      (by intro t ht; simp at ht)

/-! ### C1: the 401 retry discipline of `_request` -/

/-- C1: a `_request` run never dispatches more than two HTTP calls to the
target endpoint; a 401 on the first attempt clears the cached access token
and re-runs the whole call exactly once with `retry_auth` exhausted (the
retry acquiring a fresh token, one more authentication call); and a 401 on
the retry is terminal, yielding the generic HTTP-error failure after exactly
two target-endpoint dispatches. -/
theorem C1_single_retry (now : PyNum) (st : ClientState) (auths : Nat → AuthResult)
    (calls : Nat → CallResult) :
    ((request now st auths calls).httpCalls ≤ 2)
  ∧ (∀ body st1 a1 c1, request_attempt now st auths calls 0 0 = .unauthorized body st1 a1 c1 →
      request now st auths calls
          = request_terminal now ⟨none, st1.token_expiry⟩ auths calls a1 c1
      ∧ c1 = 1
      ∧ (request now st auths calls).authCalls = a1 + 1)
  ∧ (∀ body st1 a1 c1 r2, request_attempt now st auths calls 0 0 = .unauthorized body st1 a1 c1 →
      calls c1 = .resp r2 → r2.status = 401 →
      (∀ tok st2 n, get_access_token now ⟨none, st1.token_expiry⟩ (auths a1) = (.ok tok, st2, n) →
        (request now st auths calls).result = .error (.httpStatusError 401 r2.body)
        ∧ (request now st auths calls).httpCalls = 2)) := by
  refine ⟨?_, ?_, ?_⟩
  · unfold request
    rcases ha : request_attempt now st auths calls 0 0 with
        ⟨res, st1, a1, c1⟩ | ⟨b1, st1, a1, c1⟩
    · have h := attempt_cIdx_le now st auths calls 0 0
      rw [ha] at h
      simp [AttemptOut.cIdx] at h
      show c1 ≤ 2
      omega
    · have h := attempt_cIdx_le now st auths calls 0 0
      rw [ha] at h
      simp [AttemptOut.cIdx] at h
      show (request_terminal now ⟨none, st1.token_expiry⟩ auths calls a1 c1).httpCalls ≤ 2
      have h2 := request_terminal_httpCalls_le now ⟨none, st1.token_expiry⟩ auths calls a1 c1
      omega
  · intro body st1 a1 c1 hu
    have heq : request now st auths calls
        = request_terminal now ⟨none, st1.token_expiry⟩ auths calls a1 c1 := by
      unfold request
      rw [hu]
    have hshape := attempt_unauthorized_shape now st auths calls 0 0 body st1 a1 c1 hu
    refine ⟨heq, by omega, ?_⟩
    rw [heq]
    exact request_terminal_authCalls_of_none now st1.token_expiry auths calls a1 c1
  · intro body st1 a1 c1 r2 hu hc2 h401 tok st2 n hg2
    have heq : request now st auths calls
        = request_terminal now ⟨none, st1.token_expiry⟩ auths calls a1 c1 := by
      unfold request
      rw [hu]
    have hshape := attempt_unauthorized_shape now st auths calls 0 0 body st1 a1 c1 hu
    have hc1 : c1 = 1 := by omega
    have hs2 : is_success r2.status = false := by rw [h401]; decide
    have hatt2 := ((attempt_spec now ⟨none, st1.token_expiry⟩ auths calls a1 c1).2
        tok st2 n hg2).2.2.1 r2 hc2 hs2 h401
    have hterm : request_terminal now ⟨none, st1.token_expiry⟩ auths calls a1 c1
        = ⟨.error (classify_http_error 401 r2.body), st2, a1 + n, c1 + 1⟩ := by
      unfold request_terminal
      rw [hatt2]
    rw [heq, hterm]
    exact ⟨rfl, by show c1 + 1 = 2; omega⟩

/-- Witness for C1: a concrete run receiving 401 twice fails with the generic
HTTP error after exactly two target-endpoint dispatches. -/
theorem C1_single_retry_witness :
    (request ⟨0, 1⟩ initialState
        (fun _ => .resp 200 "\x7b\"result\": \"h.eyJleHAiOjEwMDAwfQ\"\x7d")
        (fun _ => .resp ⟨401, "application/json", "no"⟩)).result
      = .error (.httpStatusError 401 "no")
  ∧ (request ⟨0, 1⟩ initialState
        (fun _ => .resp 200 "\x7b\"result\": \"h.eyJleHAiOjEwMDAwfQ\"\x7d")
        (fun _ => .resp ⟨401, "application/json", "no"⟩)).httpCalls = 2 := by
  exact (C1_single_retry ⟨0, 1⟩ initialState
      (fun _ => .resp 200 "\x7b\"result\": \"h.eyJleHAiOjEwMDAwfQ\"\x7d")
      (fun _ => .resp ⟨401, "application/json", "no"⟩)).2.2 "no"
    ⟨some (Json.str "h.eyJleHAiOjEwMDAwfQ"), ⟨10000, 1⟩⟩ 1 1
    ⟨401, "application/json", "no"⟩ (by rfl) rfl rfl
    (Json.str "h.eyJleHAiOjEwMDAwfQ")
    ⟨some (Json.str "h.eyJleHAiOjEwMDAwfQ"), ⟨10000, 1⟩⟩ 1 (by rfl)

/-- When the first token acquisition succeeds and the first target call
responds with a success status, the run is that response handled by the
success branch. -/
theorem request_of_first_success (now : PyNum) (st : ClientState)
    (auths : Nat → AuthResult) (calls : Nat → CallResult) (tok : Json)
    (st1 : ClientState) (n : Nat) (r : HttpResp)
    (hg : get_access_token now st (auths 0) = (.ok tok, st1, n))
    (hc : calls 0 = .resp r) (hs : is_success r.status = true) :
    request now st auths calls = ⟨handle_success r, st1, n, 1⟩ := by
  have ha := ((attempt_spec now st auths calls 0 0).2 tok st1 n hg).2.1 r hc hs
  unfold request
  rw [ha]
  simp

/-! ### C5, C7, C9: the success branch of `_request` -/

/-- C5: a JSON response with a 2xx transport status whose parsed body is a
mapping with a `success` entry that is present and false fails with the
`EloverblikError` carrying the envelope's `errorCode` and `errorText`
(whatever the 2xx status is); with the flag present-and-truthy or absent, the
parsed envelope is returned for the caller. -/
theorem C5_envelope_error (now : PyNum) (st : ClientState) (auths : Nat → AuthResult)
    (calls : Nat → CallResult) (tok : Json) (st1 : ClientState) (n : Nat) (r : HttpResp)
    (fields : List (String × Json))
    (hg : get_access_token now st (auths 0) = (.ok tok, st1, n))
    (hc : calls 0 = .resp r) (hs : is_success r.status = true)
    (hct : contentTypeIsJson r.contentType = true)
    (hj : json_loads (strBytes r.body) = some (.obj fields)) :
    (∀ v, jGet fields "success" = some v → pyTruthy v = false →
        (request now st auths calls).result
          = .error (.apiEnvelopeError (jGet fields "errorCode") (jGet fields "errorText")
              (Json.obj fields)))
  ∧ (∀ v, jGet fields "success" = some v → pyTruthy v = true →
        (request now st auths calls).result = .ok (.jsonData (Json.obj fields)))
  ∧ (jGet fields "success" = none →
        (request now st auths calls).result = .ok (.jsonData (Json.obj fields))) := by
  rw [request_of_first_success now st auths calls tok st1 n r hg hc hs]
  refine ⟨?_, ?_, ?_⟩
  · intro v hv hfalse
    simp [handle_success, hct, hj, hv, hfalse]
  · intro v hv htrue
    simp [handle_success, hct, hj, hv, htrue]
  · intro hnone
    simp [handle_success, hct, hj, hnone]

/-- Witness for C5: a 200 response whose envelope has `success` false and
`errorCode` 42 fails with embedded code 42. -/
theorem C5_envelope_error_witness :
    (request ⟨0, 1⟩ initialState
        (fun _ => .resp 200 "\x7b\"result\": \"h.eyJleHAiOjEwMDAwfQ\"\x7d")
        (fun _ => .resp ⟨200, "application/json",
          "\x7b\"success\": false, \"errorCode\": 42, \"errorText\": \"boom\"\x7d"⟩)).result
      = .error (.apiEnvelopeError (some (Json.num ⟨42, 1⟩)) (some (Json.str "boom"))
          (Json.obj [("success", Json.bool false), ("errorCode", Json.num ⟨42, 1⟩),
            ("errorText", Json.str "boom")])) := by
  exact (C5_envelope_error ⟨0, 1⟩ initialState
      (fun _ => .resp 200 "\x7b\"result\": \"h.eyJleHAiOjEwMDAwfQ\"\x7d")
      (fun _ => .resp ⟨200, "application/json",
        "\x7b\"success\": false, \"errorCode\": 42, \"errorText\": \"boom\"\x7d"⟩)
      (Json.str "h.eyJleHAiOjEwMDAwfQ")
      ⟨some (Json.str "h.eyJleHAiOjEwMDAwfQ"), ⟨10000, 1⟩⟩ 1
      ⟨200, "application/json", "\x7b\"success\": false, \"errorCode\": 42, \"errorText\": \"boom\"\x7d"⟩
      [("success", Json.bool false), ("errorCode", Json.num ⟨42, 1⟩), ("errorText", Json.str "boom")]
      (by rfl) rfl (by rfl) (by rfl) (by rfl)).1
    (Json.bool false) (by rfl) (by rfl)

/-- C7: a response with a 2xx transport status whose declared content type
does not contain `application/json` is returned as its raw text body, with no
envelope interpretation — even if that text parses as JSON. -/
theorem C7_nonjson_raw_text (now : PyNum) (st : ClientState) (auths : Nat → AuthResult)
    (calls : Nat → CallResult) (tok : Json) (st1 : ClientState) (n : Nat) (r : HttpResp)
    (hg : get_access_token now st (auths 0) = (.ok tok, st1, n))
    (hc : calls 0 = .resp r) (hs : is_success r.status = true)
    (hct : contentTypeIsJson r.contentType = false) :
    (request now st auths calls).result = .ok (.text r.body) := by
  rw [request_of_first_success now st auths calls tok st1 n r hg hc hs]
  simp [handle_success, hct]

/-- Witness for C7: a `text/csv` response whose body is itself valid JSON
with a false `success` flag is still returned verbatim as text. -/
theorem C7_nonjson_raw_text_witness :
    (request ⟨0, 1⟩ initialState
        (fun _ => .resp 200 "\x7b\"result\": \"h.eyJleHAiOjEwMDAwfQ\"\x7d")
        (fun _ => .resp ⟨200, "text/csv", "\x7b\"success\": false\x7d"⟩)).result
      = .ok (.text "\x7b\"success\": false\x7d") := by
  exact C7_nonjson_raw_text ⟨0, 1⟩ initialState
    (fun _ => .resp 200 "\x7b\"result\": \"h.eyJleHAiOjEwMDAwfQ\"\x7d")
    (fun _ => .resp ⟨200, "text/csv", "\x7b\"success\": false\x7d"⟩)
    (Json.str "h.eyJleHAiOjEwMDAwfQ")
    ⟨some (Json.str "h.eyJleHAiOjEwMDAwfQ"), ⟨10000, 1⟩⟩ 1
    ⟨200, "text/csv", "\x7b\"success\": false\x7d"⟩
    (by rfl) rfl (by rfl) (by rfl)

/-- C9: a JSON response with a 2xx transport status whose parsed body is not
a mapping (array, string, number, boolean, null) is returned unchanged; the
`success: false` envelope failure applies only to mapping-shaped bodies. -/
theorem C9_nonmapping_passthrough (now : PyNum) (st : ClientState)
    (auths : Nat → AuthResult) (calls : Nat → CallResult) (tok : Json)
    (st1 : ClientState) (n : Nat) (r : HttpResp) (data : Json)
    (hg : get_access_token now st (auths 0) = (.ok tok, st1, n))
    (hc : calls 0 = .resp r) (hs : is_success r.status = true)
    (hct : contentTypeIsJson r.contentType = true)
    (hj : json_loads (strBytes r.body) = some data)
    (hobj : data.isObj = false) :
    (request now st auths calls).result = .ok (.jsonData data) := by
  rw [request_of_first_success now st auths calls tok st1 n r hg hc hs]
  cases data
  case obj fields => simp [Json.isObj] at hobj
  all_goals simp [handle_success, hct, hj]

/-- Witness for C9: a JSON array body passes through unchanged. -/
theorem C9_nonmapping_passthrough_witness :
    (request ⟨0, 1⟩ initialState
        (fun _ => .resp 200 "\x7b\"result\": \"h.eyJleHAiOjEwMDAwfQ\"\x7d")
        (fun _ => .resp ⟨200, "application/json", "[1, 2]"⟩)).result
      = .ok (.jsonData (Json.arr [Json.num ⟨1, 1⟩, Json.num ⟨2, 1⟩])) := by
  exact C9_nonmapping_passthrough ⟨0, 1⟩ initialState
    (fun _ => .resp 200 "\x7b\"result\": \"h.eyJleHAiOjEwMDAwfQ\"\x7d")
    (fun _ => .resp ⟨200, "application/json", "[1, 2]"⟩)
    (Json.str "h.eyJleHAiOjEwMDAwfQ")
    ⟨some (Json.str "h.eyJleHAiOjEwMDAwfQ"), ⟨10000, 1⟩⟩ 1
    ⟨200, "application/json", "[1, 2]"⟩
    (Json.arr [Json.num ⟨1, 1⟩, Json.num ⟨2, 1⟩])
    (by rfl) rfl (by rfl) (by rfl) (by rfl) (by rfl)

/-! ### C6: terminal classification of error statuses -/

/-- C6: a terminal (non-retriable) unsuccessful HTTP status is classified as
exactly one of: `RateLimitError` for 429, `ServerError` for any status of 500
or above, and the generic `EloverblikError` carrying the status and raw body
for every other non-success status. -/
theorem C6_terminal_status (now : PyNum) (st : ClientState) (auths : Nat → AuthResult)
    (calls : Nat → CallResult) (tok : Json) (st1 : ClientState) (n : Nat) (r : HttpResp)
    (hg : get_access_token now st (auths 0) = (.ok tok, st1, n))
    (hc : calls 0 = .resp r) (hs : is_success r.status = false) (h401 : r.status ≠ 401) :
    ((request now st auths calls).result = .error (classify_http_error r.status r.body))
  ∧ (r.status = 429 → classify_http_error r.status r.body = .rateLimitError)
  ∧ (500 ≤ r.status → classify_http_error r.status r.body = .serverError r.status)
  ∧ (r.status ≠ 429 → r.status < 500 →
      classify_http_error r.status r.body = .httpStatusError r.status r.body) := by
  refine ⟨?_, ?_, ?_, ?_⟩
  · have ha := ((attempt_spec now st auths calls 0 0).2 tok st1 n hg).2.2.2 r hc hs h401
    unfold request
    rw [ha]
  · intro h
    simp [classify_http_error, h]
  · intro h
    have h429 : (r.status == 429) = false := by
      simp only [beq_eq_false_iff_ne, ne_eq]
      omega
    simp [classify_http_error, h429, h]
  · intro h429 h500
    have h429b : (r.status == 429) = false := by
      simp only [beq_eq_false_iff_ne, ne_eq]
      exact h429
    unfold classify_http_error
    rw [if_neg (by simp [h429b]), if_neg (by omega)]

/-- Witness for C6: a 404 yields the generic HTTP error with status and
body. -/
theorem C6_terminal_status_witness :
    (request ⟨0, 1⟩ initialState
        (fun _ => .resp 200 "\x7b\"result\": \"h.eyJleHAiOjEwMDAwfQ\"\x7d")
        (fun _ => .resp ⟨404, "application/json", "nope"⟩)).result
      = .error (.httpStatusError 404 "nope") := by
  exact (C6_terminal_status ⟨0, 1⟩ initialState
      (fun _ => .resp 200 "\x7b\"result\": \"h.eyJleHAiOjEwMDAwfQ\"\x7d")
      (fun _ => .resp ⟨404, "application/json", "nope"⟩)
      (Json.str "h.eyJleHAiOjEwMDAwfQ")
      ⟨some (Json.str "h.eyJleHAiOjEwMDAwfQ"), ⟨10000, 1⟩⟩ 1
      ⟨404, "application/json", "nope"⟩
      (by rfl) rfl (by rfl) (by decide)).1

end Aioeloverblik
